import Mathlib

/-!
# Verification of the optimint orchestration core

Shallow embedding of the optimint node orchestrator (`state.go`: packages
`state` and `node`), the mock DA client, and the collaborators they use
(block store, mempool reap, DA registry), with theorems settling the
spec claims about block production, chain-state seeding, startup,
gossip propagation and cancellation.

Machine integers: Go `uint64`/`int64` values in this code never approach
their bounds (heights grow by one per block, byte budgets are small), so
they are modelled as `Nat`/`Int` without wrap-around.
-/

/-- A transaction is an opaque byte string (`types.Tx` / `lltypes.Tx`),
modelled as a list of byte values. -/
abbrev Tx := List Nat

/-- Fixed-width 32-byte digests (`[32]byte`), modelled as naturals; the Go
zero value `[32]byte{}` is `0`. -/
abbrev Hash32 := Nat

/-- The zero digest `[32]byte{}`. -/
def zeroHash : Hash32 := 0

/-- Header version pair (`types.Version`). Modelled from the spec: the
`types` package is not part of the extracted sources, but every field is
named at the construction site in `makeBlock`. -/
structure BlockVersion where
  block : Nat
  app : Nat
  deriving Repr, DecidableEq

/-- Intermediate state roots of `types.Data` (opaque to this core; always
constructed `nil` by `makeBlock`). -/
abbrev IntermediateStateRoots := List Hash32

/-- Block data (`types.Data`): ordered transactions, intermediate state
roots and evidence (evidence is opaque, modelled as a list of units).
Modelled from the spec (§3) and the construction site in `makeBlock`. -/
structure BlockData where
  txs : List Tx
  intermediateStateRoots : IntermediateStateRoots
  evidence : List Unit
  deriving Repr, DecidableEq

/-- Block header (`types.Header`). Modelled from the spec (§3) and the
construction site in `makeBlock`; the fixed-width namespace identifier is
modelled as a natural with zero value `0`. -/
structure BlockHeader where
  version : BlockVersion
  namespaceID : Nat
  height : Nat
  time : Nat
  lastHeaderHash : Hash32
  lastCommitHash : Hash32
  dataHash : Hash32
  consensusHash : Hash32
  appHash : Hash32
  lastResultsHash : Hash32
  proposerAddress : List Nat
  deriving Repr, DecidableEq

/-- A block (`types.Block`) is a header plus data. -/
structure Block where
  header : BlockHeader
  data : BlockData
  deriving Repr, DecidableEq

/-- The hashing functions `types.Hash` over headers and data. Modelled from
the spec: hashing is a deterministic, fixed digest function over a
canonical encoding ("any two implementations given identical Header/Data
values must produce bit-identical hashes"), so it is modelled as a pair of
total functions over which the theorems quantify. -/
structure HashFns where
  headerHash : BlockHeader → Hash32
  dataHash : BlockData → Hash32

/-- The block store (`store.Store`). Modelled from the spec (§4.3): keyed
persistence addressable by height, as an association list from height to
block. -/
structure BlockStore where
  entries : List (Nat × Block)
  deriving Repr, DecidableEq

/-- `Height()`: last saved height, `0` if the store is empty. Modelled from
the spec (§4.3 and testable property 2: `Height()` always reflects the
highest saved height). -/
def storeHeight (s : BlockStore) : Nat :=
  (s.entries.map Prod.fst).foldr max 0

/-- `SaveBlock`: persist by height key; overwriting an existing height is
allowed. Modelled from the spec (§4.3). -/
def saveBlock (s : BlockStore) (b : Block) : BlockStore :=
  ⟨(b.header.height, b) :: s.entries.filter (fun e => e.1 ≠ b.header.height)⟩

/-- `LoadBlock(height)`: fails with a not-found error if the height was
never saved. Modelled from the spec (§4.3). -/
def loadBlock (s : BlockStore) (h : Nat) : Except String Block :=
  match s.entries.find? (fun e => e.1 = h) with
  | some e => Except.ok e.2
  | none => Except.error "block not found"

/-- `Mempool.ReapMaxBytesMaxGas(maxBytes, maxGas)`. Modelled from the spec
(§4.2): returns a prefix of the pooled transactions, in FIFO order, not
exceeding the byte budget; a gas budget of `-1` is the "unbounded"
sentinel, and the single call site always passes `-1`, so gas is not
accounted. -/
def reapMaxBytesMaxGas (pool : List Tx) (maxBytes : Int) (maxGas : Int) : List Tx :=
  match pool with
  | [] => []
  | t :: ts =>
    if (t.length : Int) ≤ maxBytes then
      t :: reapMaxBytesMaxGas ts (maxBytes - t.length) maxGas
    else []

/-- `maxBlockSize = int64(32 * 1024)` in `publishBlock`. -/
def maxBlockSize : Int := 32 * 1024

/-- `makeBlock(height, txs)`: load block `height-1` (error if absent), hash
its header into `LastHeaderHash`, fill the header with height, current
time, zero placeholders and a nil proposer address, build `Data` from the
transactions with nil intermediate state roots and evidence, then compute
`DataHash` over that data and write it into the header. The wall-clock
`time.Now()` value is passed in as `timeNow`. -/
def makeBlock (hash : HashFns) (store : BlockStore) (height : Nat) (timeNow : Nat)
    (txs : List Tx) : Except String Block := do
  let lastBlock ← loadBlock store (height - 1)
  let lastHash := hash.headerHash lastBlock.header
  let block : Block :=
    { header :=
        { version := { block := 0, app := 0 }
          namespaceID := 0
          height := height
          time := timeNow
          lastHeaderHash := lastHash
          lastCommitHash := zeroHash
          dataHash := zeroHash
          consensusHash := zeroHash
          appHash := zeroHash
          lastResultsHash := zeroHash
          proposerAddress := [] }
      data :=
        { txs := txs
          intermediateStateRoots := []
          evidence := [] } }
  pure { block with header := { block.header with dataHash := hash.dataHash block.data } }

/-- DA submission status codes (`da.StatusCode`). Modelled from the spec
(§3, §6): `Success` plus failure codes. -/
inductive DAStatusCode where
  | success
  | failure
  deriving Repr, DecidableEq

/-- DA submission result (`da.ResultSubmitBlock`): status code plus
human-readable message. Modelled from the spec (§3). -/
structure ResultSubmitBlock where
  code : DAStatusCode
  message : String
  deriving Repr, DecidableEq

/-- `MockDataAvailabilityLayerClient.SubmitBlock` (from the mock backend
source): appends the block to the recorded list and always returns
`StatusSuccess` with message "OK". The mock's state is its `Blocks`
list. -/
def mockSubmitBlock (blocks : List Block) (b : Block) : List Block × ResultSubmitBlock :=
  (blocks ++ [b], { code := DAStatusCode.success, message := "OK" })

/-- The orchestrator state threaded through `publishBlock`: the block
store, the pooled transactions visible to `ReapMaxBytesMaxGas` (FIFO), and
the mock DA client's recorded block list. -/
structure NodeState where
  store : BlockStore
  mempoolTxs : List Tx
  daBlocks : List Block
  deriving Repr, DecidableEq

/-- `broadcastBlock(ctx, block)`: the source returns `nil` without doing
anything — in particular it performs no DA submission, so the node state
(including the DA client's recorded blocks) is unchanged. -/
def broadcastBlock (n : NodeState) (b : Block) : Except String Unit × NodeState :=
  (Except.ok (), n)

/-- `publishBlock(ctx)`: reap up to `maxBlockSize` bytes from the mempool;
if the reaped set is empty return `nil` immediately; otherwise build the
block at height `Height()+1`, save it, and call `broadcastBlock`.
`timeNow` stands for the `time.Now()` read inside `makeBlock`. -/
def publishBlock (hash : HashFns) (timeNow : Nat) (n : NodeState) :
    Except String Unit × NodeState :=
  let txs := reapMaxBytesMaxGas n.mempoolTxs maxBlockSize (-1)
  if txs.isEmpty then (Except.ok (), n)
  else
    match makeBlock hash n.store (storeHeight n.store + 1) timeNow txs with
    | Except.error e => (Except.error e, n)
    | Except.ok b =>
      broadcastBlock { n with store := saveBlock n.store b } b

/-- A validator (`lltypes.Validator`): public key, voting power, proposer
priority. Modelled from the spec — the validator types live in the
external core library. -/
structure Validator where
  pubKey : Nat
  votingPower : Int
  proposerPriority : Int
  deriving Repr, DecidableEq

/-- `types.NewValidator(pubKey, power)`: a validator with zero proposer
priority. Modelled from the spec. -/
def NewValidator (pk : Nat) (power : Int) : Validator :=
  { pubKey := pk, votingPower := power, proposerPriority := 0 }

/-- A validator set is its ordered list of validators. Modelled from the
spec. -/
abbrev ValidatorSet := List Validator

/-- `types.NewValidatorSet(validators)` (`nil` becomes the empty set).
Modelled from the spec: builds the set from the given validators. -/
def NewValidatorSet (vals : List Validator) : ValidatorSet := vals

/-- Total voting power of a set. -/
def totalVotingPower (vs : ValidatorSet) : Int :=
  (vs.map Validator.votingPower).sum

/-- Decrement the proposer priority of the first validator whose priority
equals `m` by `total` (helper for one increment round). -/
def decrementFirstAt (vs : List Validator) (m total : Int) : List Validator :=
  match vs with
  | [] => []
  | v :: rest =>
    if v.proposerPriority = m then
      { v with proposerPriority := v.proposerPriority - total } :: rest
    else v :: decrementFirstAt rest m total

/-- Maximum proposer priority in a set (0 for the empty set). -/
def maxPriority (vs : ValidatorSet) : Int :=
  (vs.map Validator.proposerPriority).foldr max 0

/-- One proposer-priority increment round. Modelled from the spec
("proposer priority incremented by one round"): every validator's priority
increases by its voting power, then the round's proposer — a validator of
maximal priority — is decremented by the total voting power. -/
def incrementProposerPriority (vs : ValidatorSet) : ValidatorSet :=
  match vs with
  | [] => []
  | _ =>
    let shifted := vs.map fun v =>
      { v with proposerPriority := v.proposerPriority + v.votingPower }
    decrementFirstAt shifted (maxPriority shifted) (totalVotingPower vs)

/-- `ValidatorSet.CopyIncrementProposerPriority(times)`: a copy of the set
with `times` increment rounds applied. Modelled from the spec. -/
def CopyIncrementProposerPriority (vs : ValidatorSet) (times : Nat) : ValidatorSet :=
  incrementProposerPriority^[times] vs

/-- Consensus parameters, opaque to this core (`tmproto.ConsensusParams`),
modelled as a natural. -/
abbrev ConsensusParams := Nat

/-- A genesis validator entry (`genDoc.Validators[i]`): public key and
power. Modelled from the spec. -/
structure GenesisValidator where
  pubKey : Nat
  power : Int
  deriving Repr, DecidableEq

/-- A genesis description (`lltypes.GenesisDoc`), with the fields
`NewFromGenesisDoc` reads. `validators = none` models the Go `nil` slice.
Modelled from the spec — the genesis type lives in the external core
library. -/
structure GenesisDoc where
  chainID : String
  initialHeight : Int
  genesisTime : Nat
  validators : Option (List GenesisValidator)
  consensusParams : ConsensusParams
  appHash : List Nat
  deriving Repr, DecidableEq

/-- The version record `tmstate.Version` held by `State`, opaque to the
claims; `InitStateVersion` is its fixed initial value. -/
structure StateVersion where
  consensusBlock : Nat
  consensusApp : Nat
  software : String
  deriving Repr, DecidableEq

/-- `InitStateVersion`: Consensus.Block set to the block protocol version,
Consensus.App left blank, Software set to the core semantic version. -/
def InitStateVersion : StateVersion :=
  { consensusBlock := 11, consensusApp := 0, software := "v0.34.0" }

/-- The chain state (`state.State`), field for field from the source. The
block ID is opaque (modelled as a natural, zero value `0`). -/
structure ChainState where
  version : StateVersion
  chainID : String
  initialHeight : Int
  lastBlockHeight : Int
  lastBlockID : Nat
  lastBlockTime : Nat
  nextValidators : ValidatorSet
  validators : ValidatorSet
  lastValidators : ValidatorSet
  lastHeightValidatorsChanged : Int
  consensusParams : ConsensusParams
  lastHeightConsensusParamsChanged : Int
  lastResultsHash : List Nat
  appHash : List Nat
  deriving Repr, DecidableEq

/-- `NewFromGenesisDoc(genDoc)`: validate and complete the genesis
description (the external `genDoc.ValidateAndComplete` is passed in as
`validate`, returning the completed document or an error), build the
current and next validator sets (next = fresh set over the same validators
with proposer priority incremented by one round; both empty when no
validators are configured), and seed the chain state. -/
def NewFromGenesisDoc (validate : GenesisDoc → Except String GenesisDoc)
    (genDoc : GenesisDoc) : Except String ChainState := do
  let g ← match validate genDoc with
    | Except.error e => Except.error ("error in genesis doc: " ++ e)
    | Except.ok g => Except.ok g
  let sets : ValidatorSet × ValidatorSet :=
    match g.validators with
    | none => (NewValidatorSet [], NewValidatorSet [])
    | some gvals =>
      let validators := gvals.map fun v => NewValidator v.pubKey v.power
      (NewValidatorSet validators,
        CopyIncrementProposerPriority (NewValidatorSet validators) 1)
  pure
    { version := InitStateVersion
      chainID := g.chainID
      initialHeight := g.initialHeight
      lastBlockHeight := 0
      lastBlockID := 0
      lastBlockTime := g.genesisTime
      nextValidators := sets.2
      validators := sets.1
      lastValidators := NewValidatorSet []
      lastHeightValidatorsChanged := g.initialHeight
      consensusParams := g.consensusParams
      lastHeightConsensusParamsChanged := g.initialHeight
      lastResultsHash := []
      appHash := g.appHash }

/-- The number of configured validators in a genesis description (a `nil`
validator slice configures zero validators). -/
def numConfiguredValidators (g : GenesisDoc) : Nat :=
  match g.validators with
  | none => 0
  | some l => l.length

/-- The three loop bodies `OnStart` can launch as goroutines. -/
inductive Loop where
  | ingestion
  | gossip
  | aggregation
  deriving Repr, DecidableEq

/-- What a successful `OnStart` produced: which loops were launched (in
launch order) and whether the transaction handler was installed with the
P2P client afterwards. -/
structure StartResult where
  loops : List Loop
  handlerInstalled : Bool
  deriving Repr, DecidableEq

/-- `Node.OnStart`: start the P2P client (abort on failure), start the DA
client (abort on failure), launch `mempoolReadLoop` and
`mempoolPublishLoop`, launch `aggregationLoop` only when
`conf.Aggregator` is set, then install the transaction handler. The
outcomes of the two external start calls are passed in as booleans. -/
def onStart (p2pStartOk dalcStartOk : Bool) (aggregator : Bool) :
    Except String StartResult :=
  if !p2pStartOk then
    Except.error "error while starting P2P client"
  else if !dalcStartOk then
    Except.error "error while starting data availability layer client"
  else
    Except.ok
      { loops := [Loop.ingestion, Loop.gossip] ++
          (if aggregator then [Loop.aggregation] else [])
        handlerInstalled := true }

/-- Observable calls on a DA client during node construction. -/
inductive DACall where
  | initCall
  | startCall
  | submitBlockCall
  | stopCall
  deriving Repr, DecidableEq

/-- A DA backend registry entry, reduced to what `NewNode` observes: the
outcome of `Init` on the constructed client (the registry stores
zero-value constructors, so a fresh client is what `Init` runs on). -/
structure DABackend where
  initResult : Except String Unit

/-- `registry.GetClient(name)`. Modelled from the spec (§4.1): a mapping
from backend name to constructor; returns `none` for an unknown name. -/
def GetClient (registry : List (String × DABackend)) (name : String) :
    Option DABackend :=
  (registry.find? (fun e => e.1 = name)).map Prod.snd

/-- `NewNode` reduced to its DA-relevant control flow: after the proxy
app, event bus and P2P client come up (outcomes passed in as booleans),
look up the configured DA backend; an unknown name is a fatal
configuration error naming the backend. Otherwise `Init` is called on the
client. The second component records every call made on a DA client. -/
def newNode (proxyStartOk eventBusStartOk p2pClientOk : Bool)
    (registry : List (String × DABackend)) (daLayer : String) :
    Except String Unit × List DACall :=
  if !proxyStartOk then
    (Except.error "error starting proxy app connections", [])
  else if !eventBusStartOk then
    (Except.error "event bus error", [])
  else if !p2pClientOk then
    (Except.error "p2p client error", [])
  else
    match GetClient registry daLayer with
    | none =>
      (Except.error
        ("couldn't get data availability client named '" ++ daLayer ++ "'"), [])
    | some dalc =>
      match dalc.initResult with
      | Except.error e =>
        (Except.error ("data availability layer client initialization error: " ++ e),
          [DACall.initCall])
      | Except.ok _ => (Except.ok (), [DACall.initCall])

/-- State of the gossip loop's inner send loop (`mempoolPublishLoop`): the
pool seen through the mempool's ordered list, the cursor (`next`), the
transactions gossiped so far, and whether the loop has broken out of the
inner send loop to block on `NextWaitChan` (cursor at the tail with no
successor yet). -/
structure GossipState where
  pool : List Tx
  cursor : Nat
  sent : List Tx
  blocked : Bool
  deriving Repr, DecidableEq

/-- One iteration of the inner send loop, driven by the outcome `ok` of
this iteration's `GossipTx` call: on failure the loop logs and retries the
same cursor position unchanged; on success the transaction at the cursor
is gossiped and the cursor advances to its successor, or the loop breaks
to wait when no successor exists yet. -/
def sendStep (ok : Bool) (s : GossipState) : GossipState :=
  if s.blocked then s
  else
    match s.pool[s.cursor]? with
    | none => s
    | some tx =>
      if ok then
        if s.cursor + 1 < s.pool.length then
          { s with sent := s.sent ++ [tx], cursor := s.cursor + 1 }
        else
          { s with sent := s.sent ++ [tx], blocked := true }
      else s

/-- Run the inner send loop for `n` iterations against an oracle `resp`
giving each iteration's `GossipTx` outcome. -/
def gossipRun (resp : Nat → Bool) (s : GossipState) : Nat → GossipState
  | 0 => s
  | n + 1 => sendStep (resp n) (gossipRun resp s n)

/-- Control locations of `mempoolPublishLoop`: the outer select waiting on
`TxsWaitChan`/`ctx.Done()`, the inner send loop, the select waiting on
`NextWaitChan`/`ctx.Done()`, and loop exit. -/
inductive GLoc where
  | outerWait
  | innerSend
  | succWait
  | exited
  deriving Repr, DecidableEq

/-- One scheduling step of `mempoolPublishLoop`'s control flow.
`cancelled` is whether the shared context is done, `gossipOk` the outcome
of a `GossipTx` attempt at the current cursor, `poolNonempty` whether
`TxsFront()` finds an entry, `hasSucc` whether the cursor has a successor.
Both selects take the `ctx.Done()` branch once cancelled; the inner send
loop contains no cancellation check: a failed `GossipTx` logs and
`continue`s, a successful one advances or breaks to the successor wait. -/
def loopStep (cancelled gossipOk poolNonempty hasSucc : Bool) : GLoc → GLoc
  | GLoc.outerWait =>
    if cancelled then GLoc.exited
    else if poolNonempty then GLoc.innerSend
    else GLoc.outerWait
  | GLoc.innerSend =>
    if gossipOk then
      if hasSucc then GLoc.innerSend else GLoc.succWait
    else GLoc.innerSend
  | GLoc.succWait =>
    if cancelled then GLoc.exited
    else if hasSucc then GLoc.innerSend
    else GLoc.succWait
  | GLoc.exited => GLoc.exited

/-- Number of `GossipTx` successes the oracle `resp` grants among the
first `n` iterations. -/
def countTrue (resp : Nat → Bool) : Nat → Nat
  | 0 => 0
  | n + 1 => countTrue resp n + (if resp n then 1 else 0)

/-- Concrete fixture: the transaction `"hello"` as bytes. -/
def helloTx : Tx := [104, 101, 108, 108, 111]

/-- Concrete fixture: a digest function pair for evaluating the block
pipeline on concrete inputs. -/
def cHash : HashFns :=
  { headerHash := fun h => h.height + 100
    dataHash := fun d => d.txs.length + 200 }

/-- Concrete fixture: a block sitting at height 1 in the store. -/
def cBlock1 : Block :=
  { header :=
      { version := { block := 0, app := 0 }
        namespaceID := 0
        height := 1
        time := 0
        lastHeaderHash := 0
        lastCommitHash := 0
        dataHash := 0
        consensusHash := 0
        appHash := 0
        lastResultsHash := 0
        proposerAddress := [] }
    data := { txs := [], intermediateStateRoots := [], evidence := [] } }

/-- Concrete fixture: a block store holding exactly `cBlock1` at height 1. -/
def cStore1 : BlockStore := ⟨[(1, cBlock1)]⟩

/-- Concrete fixture: a node with `cStore1`, the transaction `"hello"`
pooled, and the mock DA client's recorded block list empty. -/
def cNode : NodeState := { store := cStore1, mempoolTxs := [helloTx], daBlocks := [] }

/-- The block `makeBlock` produces at height 2 from `cStore1` with
transactions `[helloTx]` at time 5 under `cHash`. -/
def cBlock2 : Block :=
  { header :=
      { version := { block := 0, app := 0 }
        namespaceID := 0
        height := 2
        time := 5
        lastHeaderHash := cHash.headerHash cBlock1.header
        lastCommitHash := zeroHash
        dataHash := cHash.dataHash { txs := [helloTx], intermediateStateRoots := [], evidence := [] }
        consensusHash := zeroHash
        appHash := zeroHash
        lastResultsHash := zeroHash
        proposerAddress := [] }
    data := { txs := [helloTx], intermediateStateRoots := [], evidence := [] } }

/-- Concrete fixture: a genesis description with one configured
validator. -/
def cGenesis : GenesisDoc :=
  { chainID := "test-chain"
    initialHeight := 1
    genesisTime := 99
    validators := some [{ pubKey := 7, power := 10 }]
    consensusParams := 3
    appHash := [1, 2] }

/-- The chain state `NewFromGenesisDoc` seeds from `cGenesis` under the
identity validation. -/
def cGenState : ChainState :=
  { version := InitStateVersion
    chainID := "test-chain"
    initialHeight := 1
    lastBlockHeight := 0
    lastBlockID := 0
    lastBlockTime := 99
    nextValidators := [{ pubKey := 7, votingPower := 10, proposerPriority := 0 }]
    validators := [{ pubKey := 7, votingPower := 10, proposerPriority := 0 }]
    lastValidators := []
    lastHeightValidatorsChanged := 1
    consensusParams := 3
    lastHeightConsensusParamsChanged := 1
    lastResultsHash := []
    appHash := [1, 2] }

/-- Concrete fixture: a registry holding only the mock backend. -/
def cRegistry : List (String × DABackend) := [("mock", { initResult := Except.ok () })]

/-- C3: on an aggregation tick where the mempool reap is empty,
`publishBlock` saves nothing and returns without error; the whole node
state — in particular the Block Store height — is unchanged. -/
theorem publishBlock_empty_reap_noop (hash : HashFns) (timeNow : Nat) (n : NodeState)
    (h : reapMaxBytesMaxGas n.mempoolTxs maxBlockSize (-1) = []) :
    publishBlock hash timeNow n = (Except.ok (), n) ∧
    storeHeight (publishBlock hash timeNow n).2.store = storeHeight n.store := by
  have h1 : publishBlock hash timeNow n = (Except.ok (), n) := by
    simp [publishBlock, h]
  exact ⟨h1, by rw [h1]⟩

/-- C3 witness: a node with an empty mempool skips the tick. -/
theorem publishBlock_empty_reap_noop_witness :
    publishBlock cHash 0 { store := cStore1, mempoolTxs := [], daBlocks := [] } =
      (Except.ok (), { store := cStore1, mempoolTxs := [], daBlocks := [] }) ∧
    storeHeight (publishBlock cHash 0
        { store := cStore1, mempoolTxs := [], daBlocks := [] }).2.store =
      storeHeight cStore1 :=
  publishBlock_empty_reap_noop cHash 0
    { store := cStore1, mempoolTxs := [], daBlocks := [] } rfl

/-- C10: from an empty Block Store (height 0) and a non-empty reap,
`publishBlock` targets height 1, `makeBlock` tries to load block 0, which
is never stored, so the call fails and the node state is unchanged — no
first block can be produced from an empty store. -/
theorem publishBlock_empty_store_fails (hash : HashFns) (timeNow : Nat) (n : NodeState)
    (hstore : n.store.entries = [])
    (hne : reapMaxBytesMaxGas n.mempoolTxs maxBlockSize (-1) ≠ []) :
    storeHeight n.store = 0 ∧
    publishBlock hash timeNow n = (Except.error "block not found", n) := by
  constructor
  · simp [storeHeight, hstore]
  · have hmk : makeBlock hash n.store (storeHeight n.store + 1) timeNow
        (reapMaxBytesMaxGas n.mempoolTxs maxBlockSize (-1)) =
        Except.error "block not found" := by
      simp [makeBlock, loadBlock, hstore, Except.bind]
    simp [publishBlock, List.isEmpty_iff, hne, hmk]

/-- C10 witness: empty store, `"hello"` pooled. -/
theorem publishBlock_empty_store_fails_witness :
    storeHeight (⟨[]⟩ : BlockStore) = 0 ∧
    publishBlock cHash 0 { store := ⟨[]⟩, mempoolTxs := [helloTx], daBlocks := [] } =
      (Except.error "block not found",
        { store := ⟨[]⟩, mempoolTxs := [helloTx], daBlocks := [] }) :=
  publishBlock_empty_store_fails cHash 0
    { store := ⟨[]⟩, mempoolTxs := [helloTx], daBlocks := [] } rfl (by decide)

/-- C4: for a target height `H ≥ 1`, `makeBlock` fails when block `H-1`
is absent from the store; when block `H-1` is present it returns the
block whose header has height `H`, `LastHeaderHash` the digest of block
`H-1`'s header, zero placeholders for the commit/consensus/app/results
hashes, an empty proposer address, and `DataHash` the digest of the data
built from the transaction batch. -/
theorem makeBlock_spec (hash : HashFns) (store : BlockStore) (H timeNow : Nat)
    (txs : List Tx) (hH : 1 ≤ H) :
    (loadBlock store (H - 1) = Except.error "block not found" →
      makeBlock hash store H timeNow txs = Except.error "block not found") ∧
    (∀ prev, loadBlock store (H - 1) = Except.ok prev →
      makeBlock hash store H timeNow txs = Except.ok
        { header :=
            { version := { block := 0, app := 0 }
              namespaceID := 0
              height := H
              time := timeNow
              lastHeaderHash := hash.headerHash prev.header
              lastCommitHash := zeroHash
              dataHash := hash.dataHash
                { txs := txs, intermediateStateRoots := [], evidence := [] }
              consensusHash := zeroHash
              appHash := zeroHash
              lastResultsHash := zeroHash
              proposerAddress := [] }
          data := { txs := txs, intermediateStateRoots := [], evidence := [] } }) := by
  constructor
  · intro habs
    simp [makeBlock, habs, Except.bind]
  · intro prev hprev
    simp [makeBlock, hprev, Except.bind]

/-- C4 witness: building height 2 on top of `cBlock1` yields `cBlock2`. -/
theorem makeBlock_spec_witness :
    makeBlock cHash cStore1 2 5 [helloTx] = Except.ok cBlock2 :=
  (makeBlock_spec cHash cStore1 2 5 [helloTx] (by decide)).2 cBlock1 rfl

/-- C5: for a genesis description that validates unchanged with `N`
configured validators, `NewFromGenesisDoc` seeds a current validator set
of size `N` and a next set equal to a copy of the current set with one
proposer-priority increment round; with zero configured validators both
sets are empty. -/
theorem NewFromGenesisDoc_validator_sets
    (validate : GenesisDoc → Except String GenesisDoc) (g : GenesisDoc) (s : ChainState)
    (hv : validate g = Except.ok g)
    (hs : NewFromGenesisDoc validate g = Except.ok s) :
    s.validators.length = numConfiguredValidators g ∧
    s.nextValidators = CopyIncrementProposerPriority s.validators 1 ∧
    (numConfiguredValidators g = 0 → s.validators = [] ∧ s.nextValidators = []) := by
  cases hval : g.validators with
  | none =>
    simp [NewFromGenesisDoc, hv, hval, Except.bind] at hs
    subst hs
    simp [numConfiguredValidators, hval, NewValidatorSet,
      CopyIncrementProposerPriority, incrementProposerPriority]
  | some gvals =>
    simp [NewFromGenesisDoc, hv, hval, Except.bind] at hs
    subst hs
    refine ⟨by simp [numConfiguredValidators, hval, NewValidatorSet], rfl, ?_⟩
    intro hzero
    simp [numConfiguredValidators, hval] at hzero
    subst hzero
    simp [NewValidatorSet, CopyIncrementProposerPriority, incrementProposerPriority]

/-- C5 witness: one configured validator yields sets of size one, the
next set being one increment round of the current one. -/
theorem NewFromGenesisDoc_validator_sets_witness :
    cGenState.validators.length = numConfiguredValidators cGenesis ∧
    cGenState.nextValidators = CopyIncrementProposerPriority cGenState.validators 1 ∧
    (numConfiguredValidators cGenesis = 0 →
      cGenState.validators = [] ∧ cGenState.nextValidators = []) :=
  NewFromGenesisDoc_validator_sets Except.ok cGenesis cGenState rfl rfl

/-- C6: for a genesis description that validates unchanged, the seeded
state has `LastBlockHeight = 0`, both `LastHeightValidatorsChanged` and
`LastHeightConsensusParamsChanged` equal to the genesis initial height,
and consensus parameters and app hash copied verbatim from the genesis
description. -/
theorem NewFromGenesisDoc_seeds_state
    (validate : GenesisDoc → Except String GenesisDoc) (g : GenesisDoc) (s : ChainState)
    (hv : validate g = Except.ok g)
    (hs : NewFromGenesisDoc validate g = Except.ok s) :
    s.lastBlockHeight = 0 ∧
    s.lastHeightValidatorsChanged = g.initialHeight ∧
    s.lastHeightConsensusParamsChanged = g.initialHeight ∧
    s.consensusParams = g.consensusParams ∧
    s.appHash = g.appHash := by
  simp [NewFromGenesisDoc, hv, Except.bind] at hs
  subst hs
  exact ⟨rfl, rfl, rfl, rfl, rfl⟩

/-- C6 witness: the state seeded from `cGenesis`. -/
theorem NewFromGenesisDoc_seeds_state_witness :
    cGenState.lastBlockHeight = 0 ∧
    cGenState.lastHeightValidatorsChanged = cGenesis.initialHeight ∧
    cGenState.lastHeightConsensusParamsChanged = cGenesis.initialHeight ∧
    cGenState.consensusParams = cGenesis.consensusParams ∧
    cGenState.appHash = cGenesis.appHash :=
  NewFromGenesisDoc_seeds_state Except.ok cGenesis cGenState rfl rfl

/-- C2 counterexample: with the `Aggregator` flag unset, `OnStart`
succeeds but launches only the ingestion and gossip loops — the
aggregation loop is not among the launched loops, so a successful start
does not launch all three loops for every configuration. -/
theorem onStart_counterexample :
    onStart true true false =
      Except.ok { loops := [Loop.ingestion, Loop.gossip], handlerInstalled := true } ∧
    Loop.aggregation ∉ [Loop.ingestion, Loop.gossip] :=
  ⟨rfl, by decide⟩

/-- C2 (amended): a successful `OnStart` launches the ingestion and
gossip loops unconditionally, launches the aggregation loop exactly when
the configuration's `Aggregator` flag is set, and installs the ingestion
callback with the network collaborator. -/
theorem onStart_launches_loops (p2pOk dalcOk aggregator : Bool) (r : StartResult)
    (h : onStart p2pOk dalcOk aggregator = Except.ok r) :
    Loop.ingestion ∈ r.loops ∧ Loop.gossip ∈ r.loops ∧
    (Loop.aggregation ∈ r.loops ↔ aggregator = true) ∧
    r.handlerInstalled = true := by
  cases p2pOk with
  | false => simp [onStart] at h
  | true =>
    cases dalcOk with
    | false => simp [onStart] at h
    | true =>
      simp [onStart] at h
      subst h
      cases aggregator <;> simp

/-- C2 witness: an aggregator configuration whose start succeeded. -/
theorem onStart_launches_loops_witness :
    Loop.ingestion ∈ [Loop.ingestion, Loop.gossip, Loop.aggregation] ∧
    Loop.gossip ∈ [Loop.ingestion, Loop.gossip, Loop.aggregation] ∧
    (Loop.aggregation ∈ [Loop.ingestion, Loop.gossip, Loop.aggregation] ↔ true = true) ∧
    (true : Bool) = true :=
  onStart_launches_loops true true true
    { loops := [Loop.ingestion, Loop.gossip, Loop.aggregation], handlerInstalled := true } rfl

/-- C7: for a configuration naming a DA backend absent from the registry,
`GetClient` returns `none` and `NewNode` fails with an error naming the
unknown backend, performing no call on any DA client. -/
theorem newNode_unknown_da_backend (registry : List (String × DABackend)) (name : String)
    (hunk : ∀ e ∈ registry, e.1 ≠ name) :
    GetClient registry name = none ∧
    newNode true true true registry name =
      (Except.error ("couldn't get data availability client named '" ++ name ++ "'"),
        []) := by
  have hget : GetClient registry name = none := by
    simp [GetClient, List.find?_eq_none]
    intro a b hab
    exact hunk (a, b) hab
  exact ⟨hget, by simp [newNode, hget]⟩

/-- C7 witness: looking up a backend missing from a mock-only registry. -/
theorem newNode_unknown_da_backend_witness :
    GetClient cRegistry "lazyledger" = none ∧
    newNode true true true cRegistry "lazyledger" =
      (Except.error
        ("couldn't get data availability client named '" ++ "lazyledger" ++ "'"), []) :=
  newNode_unknown_da_backend cRegistry "lazyledger" (by decide)

/-- C1: evaluating one aggregation tick with transaction `"hello"`
pooled on top of a store at height 1: `publishBlock` builds and saves the
next block (store height becomes 2, its data is exactly `["hello"]`) and
returns without error, but the DA client's recorded block list stays
empty, because `broadcastBlock` returns `nil` without calling
`SubmitBlock` — had the block been submitted, the mock client would have
recorded it with code `Success`. -/
theorem publishBlock_skips_da_submission :
    publishBlock cHash 5 cNode =
      (Except.ok (),
        { store := saveBlock cStore1 cBlock2, mempoolTxs := [helloTx], daBlocks := [] }) ∧
    storeHeight (saveBlock cStore1 cBlock2) = 2 ∧
    cBlock2.data.txs = [helloTx] ∧
    (publishBlock cHash 5 cNode).2.daBlocks = [] ∧
    mockSubmitBlock [] cBlock2 =
      ([cBlock2], { code := DAStatusCode.success, message := "OK" }) :=
  ⟨rfl, rfl, rfl, rfl, rfl⟩

/-- C9: both select points of the gossip loop exit once the shared
context is cancelled, and the inner send loop is reachable from the outer
wait; but the inner send loop contains no cancellation check — when
`GossipTx` keeps failing (as with a cancelled context) the loop retries
at the same location forever and never reaches the exit location, for any
number of scheduling steps. -/
theorem gossip_loop_ignores_cancellation :
    (∀ g p h, loopStep true g p h GLoc.outerWait = GLoc.exited ∧
      loopStep true g p h GLoc.succWait = GLoc.exited) ∧
    loopStep false false true false GLoc.outerWait = GLoc.innerSend ∧
    ∀ n : Nat,
      (loopStep true false false false)^[n] GLoc.innerSend = GLoc.innerSend := by
  refine ⟨fun g p h => ⟨rfl, rfl⟩, rfl, ?_⟩
  intro n
  induction n with
  | zero => rfl
  | succ k ih => rw [Function.iterate_succ_apply', ih]; rfl

lemma sendStep_false_id (s : GossipState) : sendStep false s = s := by
  unfold sendStep
  split
  · rfl
  · split <;> simp

lemma sendStep_sent_mono (b : Bool) (s : GossipState) : s.sent ⊆ (sendStep b s).sent := by
  unfold sendStep
  split
  · exact List.Subset.refl _
  · split
    · exact List.Subset.refl _
    · split
      · split <;> simp
      · exact List.Subset.refl _

lemma iterate_sent_mono (m : Nat) (s : GossipState) :
    s.sent ⊆ ((sendStep true)^[m] s).sent := by
  induction m with
  | zero => exact List.Subset.refl _
  | succ k ih =>
    rw [Function.iterate_succ_apply']
    exact ih.trans (sendStep_sent_mono true _)

lemma gossipRun_eq_iterate (resp : Nat → Bool) (s : GossipState) (n : Nat) :
    gossipRun resp s n = (sendStep true)^[countTrue resp n] s := by
  induction n with
  | zero => rfl
  | succ k ih =>
    show sendStep (resp k) (gossipRun resp s k) = _
    rw [ih]
    cases hr : resp k with
    | true =>
      have hc : countTrue resp (k + 1) = countTrue resp k + 1 := by
        simp [countTrue, hr]
      rw [hc, Function.iterate_succ_apply']
    | false =>
      rw [sendStep_false_id]
      simp [countTrue, hr]

lemma countTrue_mono (resp : Nat → Bool) : Monotone (countTrue resp) := by
  apply monotone_nat_of_le_succ
  intro n
  simp only [countTrue]
  split <;> omega

lemma countTrue_unbounded (resp : Nat → Bool)
    (fair : ∀ k, ∃ j, k ≤ j ∧ resp j = true) (m : Nat) :
    ∃ n, m ≤ countTrue resp n := by
  induction m with
  | zero => exact ⟨0, Nat.zero_le _⟩
  | succ k ih =>
    obtain ⟨n, hn⟩ := ih
    obtain ⟨j, hnj, hj⟩ := fair n
    have h1 : countTrue resp n ≤ countTrue resp j := countTrue_mono resp hnj
    have h2 : countTrue resp (j + 1) = countTrue resp j + 1 := by
      simp [countTrue, hj]
    exact ⟨j + 1, by omega⟩

lemma iterate_sendStep_sends (pool : List Tx) (i : Nat) (hi : i < pool.length) :
    ∀ d c : Nat, c + d = i → ∀ sent : List Tx,
      pool[i] ∈
        ((sendStep true)^[d + 1]
          ({ pool := pool, cursor := c, sent := sent, blocked := false } :
            GossipState)).sent := by
  intro d
  induction d with
  | zero =>
    intro c hc sent
    have hci : c = i := by omega
    subst hci
    have hget : pool[c]? = some pool[c] := List.getElem?_eq_getElem hi
    rw [Function.iterate_one]
    show pool[c] ∈ (sendStep true
      { pool := pool, cursor := c, sent := sent, blocked := false }).sent
    simp only [sendStep, Bool.false_eq_true, if_false, hget]
    split
    · split <;> simp
    · simp_all
  | succ d ih =>
    intro c hc sent
    have hc1 : c < pool.length := by omega
    have hget : pool[c]? = some pool[c] := List.getElem?_eq_getElem hc1
    have hstep : sendStep true
        ({ pool := pool, cursor := c, sent := sent, blocked := false } : GossipState) =
        { pool := pool, cursor := c + 1,
          sent := sent ++ [pool[c]], blocked := false } := by
      have hlt : c + 1 < pool.length := by omega
      simp [sendStep, hget, hlt]
    rw [Function.iterate_succ_apply, hstep]
    exact ih (c + 1) (by omega) _

/-- C8: a failed `GossipTx` leaves the send loop's state — in particular
the cursor — unchanged, so the same transaction is retried from the same
position; consequently, whenever the gossip oracle succeeds infinitely
often, every transaction in the pool is eventually gossiped at least
once. -/
theorem gossip_retries_and_eventually_sends :
    (∀ s : GossipState, sendStep false s = s) ∧
    (∀ (resp : Nat → Bool) (pool : List Tx) (i : Nat) (hi : i < pool.length),
      (∀ k, ∃ j, k ≤ j ∧ resp j = true) →
      ∃ n, pool[i] ∈
        (gossipRun resp
          { pool := pool, cursor := 0, sent := [], blocked := false } n).sent) := by
  refine ⟨sendStep_false_id, ?_⟩
  intro resp pool i hi fair
  obtain ⟨n, hn⟩ := countTrue_unbounded resp fair (i + 1)
  refine ⟨n, ?_⟩
  rw [gossipRun_eq_iterate]
  have hkey : countTrue resp n = (countTrue resp n - (i + 1)) + (i + 1) := by omega
  rw [hkey, Function.iterate_add_apply]
  exact iterate_sent_mono _ _ (iterate_sendStep_sends pool i hi i 0 (by omega) [])

/-- C8 witness: with an always-successful oracle, the single pooled
transaction `[1]` is eventually gossiped. -/
theorem gossip_retries_and_eventually_sends_witness :
    ∃ n, [1] ∈ (gossipRun (fun _ => true)
      { pool := [[1]], cursor := 0, sent := [], blocked := false } n).sent :=
  gossip_retries_and_eventually_sends.2 (fun _ => true) [[1]] 0 (by decide)
    (fun k => ⟨k, le_rfl, rfl⟩)
